import Mathlib

/-!
Verification development for `scripts/rebuild-jcr-db.py`, a batch loader that
rebuilds an SQLite database of journal metrics from CSV files.

The script is shallowly embedded: SQL NULL is `Option.none`, a table is a list
of rows together with its declared schema, `INSERT OR REPLACE` follows SQLite's
semantics (rows conflicting on a declared UNIQUE key whose values are all
non-NULL are deleted before the insert; NULL key cells never conflict; a NULL
in a NOT NULL column with no default aborts), and the CSV reader follows
`csv.DictReader` (header row gives the field names, short data rows are padded
with None, i.e. `restval`).  Not modelled, because no claim and no imported
file exercises them: duplicate header names (DictReader collapses them into one
dict key) and data rows longer than the header (DictReader's `restkey`).
Python's `str.strip` is rendered as `pyStrip`, a structural-recursion
whitespace trim over the character list, so every definition evaluates by
kernel reduction.
-/

namespace RebuildJcrDb

instance {ε α : Type} [DecidableEq ε] [DecidableEq α] :
    DecidableEq (Except ε α) := fun
  | .error e, .error f => decidable_of_iff (e = f) (by simp)
  | .error _, .ok _ => .isFalse fun h => by cases h
  | .ok _, .error _ => .isFalse fun h => by cases h
  | .ok x, .ok y => decidable_of_iff (x = y) (by simp)

/-- Python's `str.strip()`: drop leading and trailing whitespace. -/
def pyStrip (s : String) : String :=
  String.mk
    (((s.data.dropWhile Char.isWhitespace).reverse.dropWhile
        Char.isWhitespace).reverse)

/-- Does `s` end with `suffix`?  (`str.endswith` / `Path.suffix` checks.) -/
def hasSuffix (s suffix : String) : Bool :=
  List.isPrefixOf suffix.data.reverse s.data.reverse

/-- A stored cell value: `none` models SQL NULL. -/
abbrev Value := Option String

/-- A CSV file: `none` when the file is absent from the source directory,
otherwise its records in order; the first record, when present, is the header
row read by `csv.DictReader`. -/
abbrev CsvFile := Option (List (List String))

/-- Cell normalisation from the import loop:
`val = row[col].strip() if row[col] else None; if val == '': val = None`.
A missing or empty cell becomes NULL, otherwise the cell is trimmed and a
whitespace-only cell also becomes NULL. -/
def cleanValue : Option String → Value
  | none => none
  | some s =>
    if s = "" then none
    else if pyStrip s = "" then none
    else some (pyStrip s)

/-- Declared shape of one table, as issued by `create_tables`.  `columns`
includes the surrogate `id`; `idAutoInc` records the
`id INTEGER PRIMARY KEY AUTOINCREMENT` clause; `notNull` lists the columns
declared NOT NULL besides `id`; `uniqueKey` is the declared
`UNIQUE(...)` column list, when any. -/
structure TableSchema where
  name : String
  columns : List String
  idAutoInc : Bool
  notNull : List String
  uniqueKey : Option (List String)
  deriving Repr, DecidableEq

/-- One stored row: the auto-assigned rowid plus the cells supplied by the
insert, as (column, value) pairs.  Columns of the table that the insert did
not mention are NULL, which `getCell` returns for any absent column. -/
structure Row where
  rid : Nat
  cells : List (String × Value)
  deriving Repr, DecidableEq

/-- Read one column of a row; a column not supplied by the insert is NULL. -/
def getCell (r : Row) (c : String) : Value :=
  (r.cells.lookup c).join

/-- A table: its declared schema, the next rowid `AUTOINCREMENT` will assign,
and the stored rows in insertion order. -/
structure Table where
  schema : TableSchema
  nextId : Nat
  rows : List Row
  deriving Repr, DecidableEq

/-- SQLite UNIQUE-conflict test between two rows on key columns `key`:
they conflict exactly when every key column is non-NULL in both rows and the
values agree (NULLs are distinct for UNIQUE constraints). -/
def keyEq (key : List String) (a b : Row) : Bool :=
  key.all fun c =>
    match getCell a c, getCell b c with
    | some x, some y => x == y
    | _, _ => false

/-- One `INSERT OR REPLACE INTO t (cols) VALUES (vals)` against table `t`:
an unknown column is an error (`no such column`); a NULL in a NOT NULL column
aborts (REPLACE falls back to ABORT when the column has no default); otherwise
rows conflicting with the new row on the declared UNIQUE key are deleted and
the new row is appended with a fresh rowid. -/
def insertOrReplace (t : Table) (cols : List String) (vals : List Value) :
    Except String Table :=
  if cols.all (fun c => t.schema.columns.contains c) then
    if t.schema.notNull.all
        (fun c => (getCell ⟨t.nextId, cols.zip vals⟩ c).isSome) then
      .ok { t with
        nextId := t.nextId + 1,
        rows :=
          (match t.schema.uniqueKey with
           | some key =>
             t.rows.filter fun r => !(keyEq key ⟨t.nextId, cols.zip vals⟩ r)
           | none => t.rows) ++ [⟨t.nextId, cols.zip vals⟩] }
    else .error ("NOT NULL constraint failed: " ++ t.schema.name)
  else .error ("table " ++ t.schema.name ++ " has no such column")

/-- `cursor.executemany(insert_sql, data)`: the inserts of one file are issued
sequentially inside the implicit transaction; the first failing insert raises
and the batch produces no committed state. -/
def execMany (t : Table) (cols : List String) :
    List (List Value) → Except String Table
  | [] => .ok t
  | v :: vs =>
    match insertOrReplace t cols v with
    | .ok t' => execMany t' cols vs
    | .error e => .error e

/-- The values bound for one data row: one value per header column, in header
order; `DictReader` maps the i-th header name to the i-th cell and fills
missing trailing cells with `restval = None`. -/
def toValues (cols : List String) (rec : List String) : List Value :=
  (List.range cols.length).map fun i => cleanValue rec[i]?

/-- `import_csv_to_table` on a file that exists, given its records.
An entirely empty file leaves `reader.fieldnames` as `None`, so the
field-name-stripping line raises `TypeError`.  A header-only file reports
emptiness and contributes zero rows.  Otherwise every data row is bound to the
trimmed header names and the whole batch is executed and committed, returning
the number of rows processed. -/
def importCsvContent (t : Table) (records : List (List String)) :
    Except String (Table × Nat) :=
  match records with
  | [] => .error "TypeError: reader.fieldnames is None"
  | header :: dataRows =>
    if dataRows.isEmpty then .ok (t, 0)
    else
      match execMany t (header.map pyStrip)
          (dataRows.map (toValues (header.map pyStrip))) with
      | .ok t' => .ok (t', dataRows.length)
      | .error e => .error e

/-- `import_csv_to_table`: a missing file is reported and contributes zero
rows without touching the table; otherwise the file's records are imported. -/
def importCsv (t : Table) (file : CsvFile) : Except String (Table × Nat) :=
  match file with
  | none => .ok (t, 0)
  | some records => importCsvContent t records

/-- The committed state of the target table after `import_csv_to_table`:
`conn.commit()` runs only after the whole batch succeeded, so on an exception
the open transaction is never committed and the table keeps its prior
contents. -/
def importCommitted (t : Table) (file : CsvFile) : Table :=
  match importCsv t file with
  | .ok (t', _) => t'
  | .error _ => t

/-- Number of data rows of a source file: zero when the file is missing or has
no records beyond a header. -/
def dataRowCount : CsvFile → Nat
  | none => 0
  | some [] => 0
  | some (_ :: rs) => rs.length

/-! ### The declared schemas, from `create_tables` -/

/-- `JCR2020(id, Journal NOT NULL, "IF (2020)", UNIQUE(Journal))` — note the
space after `IF`. -/
def jcr2020Schema : TableSchema :=
  ⟨"JCR2020", ["id", "Journal", "IF (2020)"], true, ["Journal"], some ["Journal"]⟩

/-- `JCR2021(id, Journal NOT NULL, "IF(2021)", UNIQUE(Journal))`. -/
def jcr2021Schema : TableSchema :=
  ⟨"JCR2021", ["id", "Journal", "IF(2021)"], true, ["Journal"], some ["Journal"]⟩

/-- `JCR2022(id, Journal NOT NULL, "IF(2022)", "IF Quartile(2022)", UNIQUE(Journal))`. -/
def jcr2022Schema : TableSchema :=
  ⟨"JCR2022", ["id", "Journal", "IF(2022)", "IF Quartile(2022)"], true,
    ["Journal"], some ["Journal"]⟩

/-- `JCR2023` with country, ISSN/EISSN, category and rank columns. -/
def jcr2023Schema : TableSchema :=
  ⟨"JCR2023",
    ["id", "Journal", "Country", "ISSN", "EISSN", "Web of Science", "IF(2023)",
      "Category", "IF Quartile(2023)", "Category Rank(2023)"], true,
    ["Journal"], some ["Journal"]⟩

/-- `JCR2024` with ISSN, eISSN, category, quartile and rank columns. -/
def jcr2024Schema : TableSchema :=
  ⟨"JCR2024",
    ["id", "Journal", "ISSN", "eISSN", "Category", "IF(2024)",
      "IF Quartile(2024)", "IF Rank(2024)"], true,
    ["Journal"], some ["Journal"]⟩

/-- The CAS-partition table `FQBJCR{year}` for 2021–2023:
journal, year, ISSN, review/open-access/WoS flags, major category and
partition, Top flag, six subcategory slots; `UNIQUE(Journal, ISSN)`. -/
def fqbSchema (year : Nat) : TableSchema :=
  ⟨"FQBJCR" ++ toString year,
    ["id", "Journal", "年份", "ISSN", "Review", "Open Access", "Web of Science",
      "大类", "大类分区", "Top",
      "小类1", "小类1分区", "小类2", "小类2分区", "小类3", "小类3分区",
      "小类4", "小类4分区", "小类5", "小类5分区", "小类6", "小类6分区"], true,
    ["Journal"], some ["Journal", "ISSN"]⟩

/-- `FQBJCR2025`, which adds the OA-journal-index and annotated-mark columns
and keys on `ISSN/EISSN`; `UNIQUE(Journal, "ISSN/EISSN")`. -/
def fqb2025Schema : TableSchema :=
  ⟨"FQBJCR2025",
    ["id", "Journal", "年份", "ISSN/EISSN", "Review", "OA Journal Index（OAJ）",
      "Open Access", "Web of Science", "标注", "大类", "大类分区", "Top",
      "小类1", "小类1分区", "小类2", "小类2分区", "小类3", "小类3分区",
      "小类4", "小类4分区", "小类5", "小类5分区", "小类6", "小类6分区"], true,
    ["Journal"], some ["Journal", "ISSN/EISSN"]⟩

/-- `CCF2019`: abbreviation, journal, year, publisher, site, field,
recommendation category and type, merged/renamed-to.  No UNIQUE constraint
and no NOT NULL column. -/
def ccf2019Schema : TableSchema :=
  ⟨"CCF2019",
    ["id", "刊物简称", "Journal", "年份", "出版社", "网址", "领域",
      "CCF推荐类别（国际学术刊物/会议）", "CCF推荐类型", "合并/更名为"], true,
    [], none⟩

/-- `CCF2022`: like CCF2019 but with the full-name column and without the
merged/renamed-to column.  No UNIQUE constraint. -/
def ccf2022Schema : TableSchema :=
  ⟨"CCF2022",
    ["id", "刊物名称", "Journal", "年份", "出版社", "网址", "领域",
      "CCF推荐类别（国际学术刊物/会议）", "CCF推荐类型"], true,
    [], none⟩

/-- `CCFChinese2019`: journal, organiser, site, recommendation type.
No UNIQUE constraint. -/
def ccfChinese2019Schema : TableSchema :=
  ⟨"CCFChinese2019", ["id", "Journal", "主办单位", "网址", "CCF推荐类型"], true,
    [], none⟩

/-- `CCFT2022`: Chinese title, journal, CN number, language, organiser,
recommendation category, T-partition.  No UNIQUE constraint. -/
def ccft2022Schema : TableSchema :=
  ⟨"CCFT2022",
    ["id", "中文刊名", "Journal", "CN号", "语种", "主办单位", "CCF推荐类别",
      "T分区"], true,
    [], none⟩

/-- Warning-list table `GJQKYJMD{year}` for 2020, 2021, 2023, carrying the
warning-level column; no UNIQUE constraint. -/
def gjqkLevelSchema (year : Nat) : TableSchema :=
  ⟨"GJQKYJMD" ++ toString year,
    ["id", "Journal", "预警等级（" ++ toString year ++ "）"], true,
    ["Journal"], none⟩

/-- Warning-list table `GJQKYJMD{year}` for 2024, 2025, carrying the
warning-reason column; no UNIQUE constraint. -/
def gjqkReasonSchema (year : Nat) : TableSchema :=
  ⟨"GJQKYJMD" ++ toString year,
    ["id", "Journal", "预警原因（" ++ toString year ++ "）"], true,
    ["Journal"], none⟩

/-- The tables issued by `create_tables`, in statement order. -/
def createTables : List TableSchema :=
  [jcr2020Schema, jcr2021Schema, jcr2022Schema, jcr2023Schema, jcr2024Schema]
    ++ [2021, 2022, 2023].map fqbSchema
    ++ [fqb2025Schema, ccf2019Schema, ccf2022Schema, ccfChinese2019Schema,
        ccft2022Schema]
    ++ [2020, 2021, 2023].map gjqkLevelSchema
    ++ [2024, 2025].map gjqkReasonSchema

/-- The database: the created tables, by name, in creation order. -/
abbrev Database := List (String × Table)

/-- The freshly created database after `create_tables` on a new file: every
declared table, empty, with rowids starting at 1. -/
def createDb : Database :=
  createTables.map fun s => (s.name, ⟨s, 1, []⟩)

/-- Replace the stored state of table `name`. -/
def dbUpdate (db : Database) (name : String) (t : Table) : Database :=
  db.map fun e => if e.1 = name then (e.1, t) else e

/-! ### `create_indexes` -/

/-- One `CREATE INDEX IF NOT EXISTS idx ON tbl(col)` statement. -/
structure IndexStmt where
  idxName : String
  table : String
  column : String
  deriving Repr, DecidableEq

/-- The statements issued by `create_indexes`, in program order. -/
def createIndexStmts : List IndexStmt :=
  ([2020, 2021, 2022, 2023].flatMap fun y =>
    [⟨"idx_jcr" ++ toString y ++ "_journal", "JCR" ++ toString y, "Journal"⟩,
     ⟨"idx_jcr" ++ toString y ++ "_quartile", "JCR" ++ toString y,
       "IF Quartile(" ++ toString y ++ ")"⟩])
  ++ [⟨"idx_jcr2024_journal", "JCR2024", "Journal"⟩,
      ⟨"idx_jcr2024_issn", "JCR2024", "ISSN"⟩,
      ⟨"idx_jcr2024_eissn", "JCR2024", "eISSN"⟩,
      ⟨"idx_jcr2024_quartile", "JCR2024", "IF Quartile(2024)"⟩,
      ⟨"idx_jcr2024_category", "JCR2024", "Category"⟩]
  ++ ([2021, 2022, 2023].flatMap fun y =>
    [⟨"idx_fqb" ++ toString y ++ "_journal", "FQBJCR" ++ toString y, "Journal"⟩,
     ⟨"idx_fqb" ++ toString y ++ "_issn", "FQBJCR" ++ toString y, "ISSN"⟩,
     ⟨"idx_fqb" ++ toString y ++ "_major_cat", "FQBJCR" ++ toString y, "大类"⟩,
     ⟨"idx_fqb" ++ toString y ++ "_major_part", "FQBJCR" ++ toString y, "大类分区"⟩,
     ⟨"idx_fqb" ++ toString y ++ "_top", "FQBJCR" ++ toString y, "Top"⟩])
  ++ [⟨"idx_fqb2025_journal", "FQBJCR2025", "Journal"⟩,
      ⟨"idx_fqb2025_issn", "FQBJCR2025", "ISSN/EISSN"⟩,
      ⟨"idx_fqb2025_major_cat", "FQBJCR2025", "大类"⟩,
      ⟨"idx_fqb2025_major_part", "FQBJCR2025", "大类分区"⟩,
      ⟨"idx_fqb2025_top", "FQBJCR2025", "Top"⟩]
  ++ [⟨"idx_ccf2019_journal", "CCF2019", "Journal"⟩,
      ⟨"idx_ccf2022_journal", "CCF2022", "Journal"⟩,
      ⟨"idx_ccfcn2019_journal", "CCFChinese2019", "Journal"⟩,
      ⟨"idx_ccft2022_journal", "CCFT2022", "Journal"⟩]
  ++ ([2020, 2021, 2023, 2024, 2025].map fun y =>
    ⟨"idx_gjqk" ++ toString y ++ "_journal", "GJQKYJMD" ++ toString y, "Journal"⟩)

/-- Execute one `CREATE INDEX IF NOT EXISTS` statement against the schemas on
file: SQLite accepts it exactly when the table exists and the indexed column
is one of that table's columns (`IF NOT EXISTS` only silences a name clash,
not a missing column). -/
def runIndexStmt (db : Database) (s : IndexStmt) : Except String Unit :=
  match db.lookup s.table with
  | none => .error ("no such table: " ++ s.table)
  | some t =>
    if t.schema.columns.contains s.column then .ok ()
    else .error ("no such column: " ++ s.column)

/-- `create_indexes`: issue the statements in order; the first SQLite error
raises and aborts the function. -/
def runCreateIndexes (db : Database) : List IndexStmt → Except String Unit
  | [] => .ok ()
  | s :: rest =>
    match runIndexStmt db s with
    | .ok _ => runCreateIndexes db rest
    | .error e => .error e

/-! ### The orchestrator `main` -/

/-- The known (csv-file-name, table-name) pairs, in the order `main` imports
them.  Note that the warning-list files carry no `-UTF8` suffix. -/
def filePairs : List (String × String) :=
  ([2020, 2021, 2022, 2023, 2024].map fun y =>
    ("JCR" ++ toString y ++ "-UTF8.csv", "JCR" ++ toString y))
  ++ ([2021, 2022, 2023, 2025].map fun y =>
    ("FQBJCR" ++ toString y ++ "-UTF8.csv", "FQBJCR" ++ toString y))
  ++ [("CCF2019-UTF8.csv", "CCF2019"), ("CCF2022-UTF8.csv", "CCF2022"),
      ("CCFChinese2019-UTF8.csv", "CCFChinese2019"),
      ("CCFT2022-UTF8.csv", "CCFT2022")]
  ++ ([2020, 2021, 2023, 2024, 2025].map fun y =>
    ("GJQKYJMD" ++ toString y ++ ".csv", "GJQKYJMD" ++ toString y))

/-- The contents of the source directory: which CSV files are present, and
their records. -/
abbrev Env := String → CsvFile

/-- One iteration of the import loop: check file existence first (a missing
file contributes zero rows without touching the database), then import the
records into the named table and commit. -/
def importStep (env : Env) (db : Database) (p : String × String) :
    Except String (Database × Nat) :=
  match env p.1 with
  | none => .ok (db, 0)
  | some records =>
    match db.lookup p.2 with
    | none => .error ("no such table: " ++ p.2)
    | some t =>
      match importCsvContent t records with
      | .ok (t', n) => .ok (dbUpdate db p.2 t', n)
      | .error e => .error e

/-- The import loop of `main`: run the importer once per known pair,
accumulating the running total of rows processed; an unhandled importer
exception aborts the run. -/
def runImports (env : Env) : List (String × String) → Database → Nat →
    Except String (Database × Nat)
  | [], db, acc => .ok (db, acc)
  | p :: ps, db, acc =>
    match importStep env db p with
    | .ok (db', n) => runImports env ps db' (acc + n)
    | .error e => .error e

/-- Steps 3–5 of `main`: create the schema on a fresh database file, then
run the importer on every known pair, returning the database and the
reported running total `total_records`. -/
def mainImports (env : Env) : Except String (Database × Nat) :=
  runImports env filePairs createDb 0

/-- `true` exactly on a successful result. -/
def resultOk {α : Type} (r : Except String α) : Bool :=
  match r with
  | .ok _ => true
  | .error _ => false

/-! ### Startup and backup behaviour of `main` -/

/-- The externally visible events of `main`'s startup sequence. -/
inductive StartEvent where
  | diagMissingDir
  | backupCopy
  | dbUnlink
  | dbCreate
  deriving Repr, DecidableEq

/-- `main`'s startup: if the CSV directory is missing, print the diagnostic
and `return` — the interpreter then leaves `main()` normally, so the process
exits with status 0 and performs no backup, deletion or database creation.
Otherwise: when a database file exists, copy it to the backup path and only
then unlink it, and finally create the new database file. -/
def mainStartup (csvDirExists dbExists : Bool) : List StartEvent × Nat :=
  if !csvDirExists then ([.diagMissingDir], 0)
  else
    ((if dbExists then [.backupCopy, .dbUnlink] else []) ++ [.dbCreate], 0)

/-- An event that changes the filesystem (the diagnostic is the only
non-destructive startup event). -/
def destructiveEvent : StartEvent → Bool
  | .diagMissingDir => false
  | _ => true

/-- A flat filesystem for the backup policy: a finite map from paths to file
contents, represented as (path, contents) pairs with unique paths. -/
abbrev FS := List (String × String)

/-- Delete a file. -/
def fsRemove (fs : FS) (p : String) : FS :=
  fs.filter fun e => e.1 != p

/-- Write (create or fully overwrite) the file at `p`. -/
def fsWrite (fs : FS) (p : String) (contents : String) : FS :=
  (p, contents) :: fsRemove fs p

/-- The database path and its sibling backup path
(`DB_PATH.with_suffix('.db.backup')`). -/
def dbPath : String := "data/jcr.db"

/-- `data/jcr.db` with its `.db` suffix replaced by `.db.backup`. -/
def backupPath : String := "data/jcr.db.backup"

/-- Is this a backup file? -/
def isBackupFile (e : String × String) : Bool :=
  hasSuffix e.1 ".backup"

/-- The filesystem effect of `main` on the data directory when the CSV
directory exists: if a database file is present, `shutil.copy2` it to the
backup path, then `unlink` the original; afterwards `sqlite3.connect`
creates the new database file, which the rest of the run keeps rewriting
(`newContents` stands for whatever the rebuild leaves there). -/
def rebuildFs (fs : FS) (newContents : String) : FS :=
  fsWrite
    (match fs.lookup dbPath with
     | some oldDb => fsRemove (fsWrite fs backupPath oldDb) dbPath
     | none => fs)
    dbPath newContents

/-! ### Shared sample data for concrete runs -/

/-- The empty `GJQKYJMD2020` table as `create_tables` leaves it. -/
def gjTable0 : Table := ⟨gjqkLevelSchema 2020, 1, []⟩

/-- A one-row warning-list CSV. -/
def gjFile1 : CsvFile :=
  some [["Journal", "预警等级（2020）"], ["Journal of X", "High"]]

/-- The empty `JCR2020` table as `create_tables` leaves it. -/
def jcrTable0 : Table := ⟨jcr2020Schema, 1, []⟩

/-- A one-row JCR2020 CSV. -/
def jcrFile1 : CsvFile :=
  some [["Journal", "IF (2020)"], ["Nature", "64.8"]]

/-! ### Derived definitions used by the analysis -/

/-- Number of backup files on disk. -/
def countBackups (fs : FS) : Nat :=
  (fs.filter isBackupFile).length

/-- The names of the tables the schema initializer creates, in creation
order: 18 tables, with warning-list tables for 2020, 2021, 2023, 2024 and
2025 — there is none for 2022. -/
def expectedTableNames : List String :=
  ["JCR2020", "JCR2021", "JCR2022", "JCR2023", "JCR2024",
   "FQBJCR2021", "FQBJCR2022", "FQBJCR2023", "FQBJCR2025",
   "CCF2019", "CCF2022", "CCFChinese2019", "CCFT2022",
   "GJQKYJMD2020", "GJQKYJMD2021", "GJQKYJMD2023", "GJQKYJMD2024",
   "GJQKYJMD2025"]

/-- The environment of a run with a single present file: the 2020 warning
list with two data rows. -/
def envW : Env := fun name =>
  if name = "GJQKYJMD2020.csv" then
    some [["Journal", "预警等级（2020）"],
          ["Journal of X", "High"], ["Journal of Y", "Mid"]]
  else none

/-- A row's cells as bound by one insert, for key comparisons (the rowid
plays no part in UNIQUE conflicts). -/
def rowOf (cols : List String) (vals : List Value) : Row :=
  ⟨0, cols.zip vals⟩

/-- Every key column of the bound row carries a non-NULL value. -/
def keyComplete (key cols : List String) (vals : List Value) : Bool :=
  key.all fun k => (getCell (rowOf cols vals) k).isSome

/-- Every data row of the file binds non-NULL values on all key columns. -/
def fileKeysComplete (key : List String) (file : CsvFile) : Bool :=
  match file with
  | none => true
  | some [] => true
  | some (header :: dataRows) =>
    dataRows.all fun rec =>
      keyComplete key (header.map pyStrip) (toValues (header.map pyStrip) rec)

/-- Does some row of the batch `vs` conflict with stored row `r` on the
key? -/
def matchedBy (key cols : List String) (vs : List (List Value)) (r : Row) :
    Bool :=
  vs.any fun v => keyEq key (rowOf cols v) r

/-- Number of distinct keys a batch contributes: a row survives the batch
exactly when no later row of the batch carries the same key. -/
def dcount (key cols : List String) : List (List Value) → Nat
  | [] => 0
  | v :: vs =>
    dcount key cols vs +
      (if matchedBy key cols vs (rowOf cols v) then 0 else 1)

/-- C3 counterexample data: the warning-list table after one and after two
runs of the importer on the same one-row file. -/
def gjT1 : Table :=
  ⟨gjqkLevelSchema 2020, 2,
    [⟨1, [("Journal", some "Journal of X"), ("预警等级（2020）", some "High")]⟩]⟩

/-- The same table after re-importing the same file: the row is duplicated. -/
def gjT2 : Table :=
  ⟨gjqkLevelSchema 2020, 3,
    [⟨1, [("Journal", some "Journal of X"), ("预警等级（2020）", some "High")]⟩,
     ⟨2, [("Journal", some "Journal of X"), ("预警等级（2020）", some "High")]⟩]⟩

/-! ### C1 — index columns versus declared columns -/

/-- C1: the claim says every index created by `create_indexes` names only
columns of its table, so running it after `create_tables` raises no error.
The code violates this: on the fresh schema, `create_indexes` raises
`no such column: IF Quartile(2020)` at its second statement, because
`idx_jcr2020_quartile` indexes `"IF Quartile(2020)"` while `JCR2020` only
declares `id`, `Journal` and `"IF (2020)"` (and likewise for `JCR2021`). -/
theorem create_indexes_raises_after_create_tables :
    runCreateIndexes createDb createIndexStmts =
      .error "no such column: IF Quartile(2020)"
    ∧ (⟨"idx_jcr2020_quartile", "JCR2020", "IF Quartile(2020)"⟩ : IndexStmt)
        ∈ createIndexStmts
    ∧ jcr2020Schema.columns.contains "IF Quartile(2020)" = false
    ∧ jcr2021Schema.columns.contains "IF Quartile(2021)" = false := by
  refine ⟨by decide, by decide, by decide, by decide⟩

/-! ### C2 — uniqueness constraints -/

/-- C2 counterexample: it is not the case that every table created by
`create_tables` declares a uniqueness constraint; `CCF2019` (like the other
CCF tables and all warning-list tables) has none. -/
theorem not_every_table_declares_unique_key :
    (createTables.all fun s => s.uniqueKey.isSome) = false
    ∧ (createTables.any fun s => s.name == "CCF2019" && s.uniqueKey.isNone)
        = true := by
  refine ⟨by decide, by decide⟩

/-- C2 amended: every table carries the surrogate auto-incrementing `id`
column, and a natural-key uniqueness constraint is declared exactly on the
JCR tables (on `Journal`) and the CAS-partition tables (on `Journal, ISSN`,
resp. `Journal, "ISSN/EISSN"` for 2025); the CCF and warning-list tables
declare no uniqueness constraint. -/
theorem unique_keys_exactly_on_jcr_and_cas_tables :
    (createTables.all fun s => s.idAutoInc && s.columns.contains "id") = true
    ∧ createTables.map (fun s => (s.name, s.uniqueKey)) =
      [("JCR2020", some ["Journal"]),
       ("JCR2021", some ["Journal"]),
       ("JCR2022", some ["Journal"]),
       ("JCR2023", some ["Journal"]),
       ("JCR2024", some ["Journal"]),
       ("FQBJCR2021", some ["Journal", "ISSN"]),
       ("FQBJCR2022", some ["Journal", "ISSN"]),
       ("FQBJCR2023", some ["Journal", "ISSN"]),
       ("FQBJCR2025", some ["Journal", "ISSN/EISSN"]),
       ("CCF2019", none),
       ("CCF2022", none),
       ("CCFChinese2019", none),
       ("CCFT2022", none),
       ("GJQKYJMD2020", none),
       ("GJQKYJMD2021", none),
       ("GJQKYJMD2023", none),
       ("GJQKYJMD2024", none),
       ("GJQKYJMD2025", none)] := by
  refine ⟨by decide, by decide⟩

/-! ### C5 — missing source directory -/

/-- C5 counterexample: when the CSV directory is missing, `main` prints the
diagnostic and `return`s, so the interpreter exits normally — process status
0, not the non-zero outcome the claim requires. -/
theorem missing_dir_exits_with_status_zero :
    (mainStartup false true).2 = 0 ∧ (mainStartup false false).2 = 0 := by
  refine ⟨rfl, rfl⟩

/-- C5 amended: with the CSV directory missing, `main` emits only the
diagnostic — no backup, no deletion, no database creation — and terminates
with process status 0 (not non-zero), whether or not an old database file
exists. -/
theorem missing_dir_aborts_without_destruction :
    mainStartup false false = ([.diagMissingDir], 0)
    ∧ mainStartup false true = ([.diagMissingDir], 0)
    ∧ destructiveEvent .diagMissingDir = false := by
  refine ⟨rfl, rfl, rfl⟩

/-! ### C8 — missing and empty files -/

/-- C8 counterexample: a CSV file that exists but is entirely empty (zero
records, hence no data rows) does not make `import_csv_to_table` report and
return 0: `reader.fieldnames` is `None`, so the field-name-stripping line
raises `TypeError` and the run aborts. -/
theorem entirely_empty_file_raises :
    importCsv (⟨ccf2019Schema, 1, []⟩ : Table) (some []) =
      .error "TypeError: reader.fieldnames is None" := rfl

/-- C8 amended: for every table, a missing CSV file and a CSV file consisting
of a header row only both make `import_csv_to_table` report the condition and
return 0 with the table untouched; and in the orchestrator's loop a missing
file leaves the whole database unchanged and the run continues to the next
pair.  (A file that exists with no records at all raises `TypeError`
instead.) -/
theorem missing_or_headeronly_contributes_zero (t : Table)
    (header : List String) (env : Env) (db : Database) (f tbl : String)
    (hmiss : env f = none) :
    importCsv t none = .ok (t, 0)
    ∧ importCsv t (some [header]) = .ok (t, 0)
    ∧ importStep env db (f, tbl) = .ok (db, 0) := by
  refine ⟨rfl, rfl, ?_⟩
  simp [importStep, hmiss]

/-- Witness for the amended C8 at a concrete table, header and environment. -/
theorem missing_or_headeronly_contributes_zero_witness :
    importCsv gjTable0 none = .ok (gjTable0, 0)
    ∧ importCsv gjTable0 (some [["Journal", "预警等级（2020）"]]) =
        .ok (gjTable0, 0)
    ∧ importStep (fun _ => none) createDb ("GJQKYJMD2020.csv", "GJQKYJMD2020")
        = .ok (createDb, 0) :=
  missing_or_headeronly_contributes_zero gjTable0
    ["Journal", "预警等级（2020）"] (fun _ => none) createDb
    "GJQKYJMD2020.csv" "GJQKYJMD2020" rfl

/-! ### C9 — per-file atomicity -/

/-- C9: `import_csv_to_table` issues a file's inserts as one
`executemany` batch and calls `conn.commit()` only afterwards; if any row's
insert raises, the open transaction is never committed, so the committed
state of the target table is unchanged. -/
theorem failed_batch_commits_nothing (t : Table) (file : CsvFile) (e : String)
    (h : importCsv t file = .error e) : importCommitted t file = t := by
  unfold importCommitted
  rw [h]

/-- Witness for C9: a warning-list file whose first row inserts fine (shown
by running that prefix of the batch alone) but whose second row has an empty
`Journal`, violating NOT NULL; the import raises and the committed table is
still empty. -/
theorem failed_batch_commits_nothing_witness :
    execMany gjTable0 ["Journal", "预警等级（2020）"]
        [[some "Journal of X", some "High"]] =
      .ok ⟨gjqkLevelSchema 2020, 2,
        [⟨1, [("Journal", some "Journal of X"), ("预警等级（2020）", some "High")]⟩]⟩
    ∧ importCsv gjTable0
        (some [["Journal", "预警等级（2020）"], ["Journal of X", "High"], ["", "Mid"]])
        = .error "NOT NULL constraint failed: GJQKYJMD2020"
    ∧ importCommitted gjTable0
        (some [["Journal", "预警等级（2020）"], ["Journal of X", "High"], ["", "Mid"]])
        = gjTable0 :=
  ⟨rfl, rfl,
    failed_batch_commits_nothing gjTable0
      (some [["Journal", "预警等级（2020）"], ["Journal of X", "High"], ["", "Mid"]])
      "NOT NULL constraint failed: GJQKYJMD2020" rfl⟩

/-! ### Row counting for successful imports -/

/-- A successful import of an existing file processes exactly the file's data
rows: no row is skipped. -/
theorem importCsvContent_count (t : Table) (records : List (List String))
    (t' : Table) (n : Nat) (h : importCsvContent t records = .ok (t', n)) :
    n = dataRowCount (some records) := by
  unfold importCsvContent at h
  split at h
  · cases h
  case h_2 header dataRows =>
    split at h
    case isTrue hemp =>
      rw [List.isEmpty_iff] at hemp
      cases h
      simp [dataRowCount, hemp]
    case isFalse hemp =>
      split at h
      · cases h
        rfl
      · cases h

/-- `import_csv_to_table` returns the number of data rows it processed. -/
theorem importCsv_count (t : Table) (file : CsvFile) (t' : Table) (n : Nat)
    (h : importCsv t file = .ok (t', n)) : n = dataRowCount file := by
  match file with
  | none => cases h; rfl
  | some records => exact importCsvContent_count t records t' n h

/-! ### C6 — trimming and NULL conversion -/

/-- C6: every imported cell value is trimmed of surrounding whitespace, and a
cell that is missing, empty or whitespace-only is stored as NULL, never as
the empty string; the last conjunct ties this to the importer, whose i-th
bound value for a data row is exactly `cleanValue` of the row's i-th raw
cell. -/
theorem imported_cells_trimmed_and_null_for_blank (raw : Option String)
    (cols rec : List String) (i : Nat) (hi : i < cols.length) :
    cleanValue raw ≠ some ""
    ∧ (∀ s, raw = some s → pyStrip s = "" → cleanValue raw = none)
    ∧ (∀ s, raw = some s → pyStrip s ≠ "" → cleanValue raw = some (pyStrip s))
    ∧ (raw = none → cleanValue raw = none)
    ∧ (toValues cols rec)[i]? = some (cleanValue rec[i]?) := by
  refine ⟨?_, ?_, ?_, ?_, ?_⟩
  · cases raw with
    | none => simp [cleanValue]
    | some s =>
      by_cases h1 : s = ""
      · simp [cleanValue, h1]
      · by_cases h2 : pyStrip s = ""
        · simp [cleanValue, h1, h2]
        · simp [cleanValue, h1, h2]
  · intro s hs hstrip
    subst hs
    by_cases h1 : s = "" <;> simp [cleanValue, h1, hstrip]
  · intro s hs hstrip
    subst hs
    by_cases h1 : s = ""
    · subst h1
      exact absurd rfl hstrip
    · simp [cleanValue, h1, hstrip]
  · intro hraw
    subst hraw
    rfl
  · simp [toValues, List.getElem?_map, List.getElem?_range hi]

/-- Witness for C6: a padded value is trimmed; a whitespace-only value and a
missing trailing cell are stored as NULL. -/
theorem imported_cells_trimmed_and_null_for_blank_witness :
    cleanValue (some "  Q1 ") = some "Q1"
    ∧ cleanValue (some "   ") = none
    ∧ (toValues ["Journal", "IF (2020)"] ["  Nature  "])[1]? = some none := by
  refine ⟨?_, ?_, ?_⟩
  · have h := (imported_cells_trimmed_and_null_for_blank (some "  Q1 ")
      ["Journal", "IF (2020)"] ["  Nature  "] 1 (by decide)).2.2.1
        "  Q1 " rfl (by decide)
    rwa [show pyStrip "  Q1 " = "Q1" by decide] at h
  · exact (imported_cells_trimmed_and_null_for_blank (some "   ")
      ["Journal", "IF (2020)"] ["  Nature  "] 1 (by decide)).2.1 "   " rfl
        (by decide)
  · exact (imported_cells_trimmed_and_null_for_blank (some "   ")
      ["Journal", "IF (2020)"] ["  Nature  "] 1 (by decide)).2.2.2.2

/-! ### C10 — data rows shorter than the header -/

/-- C10: a data row with fewer cells than the header binds NULL for every
missing trailing column — the same values as if those cells were present but
empty — and the row is neither skipped nor raised on for its shape: a
successful import still counts every data row. -/
theorem short_rows_bind_null_for_missing_cells (cols rec : List String)
    (i : Nat) (t t' : Table) (header : List String)
    (dataRows : List (List String)) (n : Nat)
    (hlen : rec.length ≤ cols.length) (hlo : rec.length ≤ i)
    (hhi : i < cols.length)
    (him : importCsv t (some (header :: dataRows)) = .ok (t', n)) :
    (toValues cols rec)[i]? = some none
    ∧ toValues cols rec =
        toValues cols (rec ++ List.replicate (cols.length - rec.length) "")
    ∧ n = dataRows.length := by
  refine ⟨?_, ?_, ?_⟩
  · simp [toValues, List.getElem?_map, List.getElem?_range hhi,
      List.getElem?_eq_none hlo, cleanValue]
  · unfold toValues
    refine List.map_congr_left ?_
    intro j hj
    rw [List.mem_range] at hj
    by_cases hjr : j < rec.length
    · rw [List.getElem?_append_left hjr]
    · have hjr' : rec.length ≤ j := Nat.le_of_not_lt hjr
      rw [List.getElem?_eq_none hjr', List.getElem?_append_right hjr']
      have hrep : j - rec.length < cols.length - rec.length := by omega
      rw [List.getElem?_replicate, if_pos hrep]
      rfl
  · exact importCsv_count t (some (header :: dataRows)) t' n him

/-- Witness for C10: a one-cell row under a two-column header imports with
NULL in the second column and is counted. -/
theorem short_rows_bind_null_for_missing_cells_witness :
    (toValues ["Journal", "预警等级（2020）"] ["OnlyJournal"])[1]? = some none
    ∧ toValues ["Journal", "预警等级（2020）"] ["OnlyJournal"] =
        toValues ["Journal", "预警等级（2020）"] ["OnlyJournal", ""]
    ∧ (1 : Nat) = ([["OnlyJournal"]] : List (List String)).length :=
  short_rows_bind_null_for_missing_cells ["Journal", "预警等级（2020）"]
    ["OnlyJournal"] 1 gjTable0
    ⟨gjqkLevelSchema 2020, 2,
      [⟨1, [("Journal", some "OnlyJournal"), ("预警等级（2020）", none)]⟩]⟩
    ["Journal", "预警等级（2020）"] [["OnlyJournal"]] 1
    (by decide) (by decide) (by decide) (by decide)

/-! ### C7 — backup policy -/

theorem lookup_fsRemove_ne (fs : FS) (p q : String) (h : q ≠ p) :
    (fsRemove fs p).lookup q = fs.lookup q := by
  induction fs with
  | nil => rfl
  | cons e fs ih =>
    obtain ⟨k, v⟩ := e
    by_cases hkp : k = p
    · have h1 : (k != p) = false := by simp [hkp]
      have h2 : (q == k) = false := by simp [hkp, h]
      simp [fsRemove, List.filter_cons, h1, List.lookup_cons, h2] at ih ⊢
      exact ih
    · have h1 : (k != p) = true := by simp [hkp]
      by_cases hqk : q = k
      · simp [fsRemove, List.filter_cons, h1, List.lookup_cons, hqk]
      · have h2 : (q == k) = false := by simp [hqk]
        simp [fsRemove, List.filter_cons, h1, List.lookup_cons, h2] at ih ⊢
        exact ih

theorem lookup_fsWrite_self (fs : FS) (p c : String) :
    (fsWrite fs p c).lookup p = some c := by
  simp [fsWrite]

theorem lookup_fsWrite_ne (fs : FS) (p c q : String) (h : q ≠ p) :
    (fsWrite fs p c).lookup q = fs.lookup q := by
  have h2 : (q == p) = false := by simp [h]
  simp [fsWrite, List.lookup_cons, h2]
  exact lookup_fsRemove_ne fs p q h

theorem countBackups_cons_not (e : String × String) (fs : FS)
    (h : isBackupFile e = false) : countBackups (e :: fs) = countBackups fs := by
  simp [countBackups, List.filter_cons, h]

theorem countBackups_cons_yes (e : String × String) (fs : FS)
    (h : isBackupFile e = true) :
    countBackups (e :: fs) = countBackups fs + 1 := by
  simp [countBackups, List.filter_cons, h]

theorem fsRemove_cons_keep (e : String × String) (fs : FS) (p : String)
    (h : (e.1 != p) = true) : fsRemove (e :: fs) p = e :: fsRemove fs p := by
  simp [fsRemove, List.filter_cons, h]

theorem countBackups_fsRemove_zero (fs : FS) (p : String)
    (h : countBackups fs = 0) : countBackups (fsRemove fs p) = 0 := by
  unfold countBackups at *
  rw [List.length_eq_zero, List.filter_eq_nil_iff] at *
  intro a ha
  exact h a (List.mem_of_mem_filter ha)

/-- C7: when a database file exists at the target path, the rebuild copies it
to the sibling backup path before unlinking the original (the event trace
lists the copy strictly before the unlink), and afterwards the backup path
holds exactly the pre-rebuild database bytes, the database path holds the
rebuilt database, and — starting from a state with no backup file — exactly
one backup file exists. -/
theorem backup_copied_before_unlink (fs : FS) (oldDb newDb : String)
    (hdb : fs.lookup dbPath = some oldDb)
    (hnb : countBackups fs = 0) :
    (rebuildFs fs newDb).lookup backupPath = some oldDb
    ∧ (rebuildFs fs newDb).lookup dbPath = some newDb
    ∧ countBackups (rebuildFs fs newDb) = 1
    ∧ (mainStartup true true).1 = [.backupCopy, .dbUnlink, .dbCreate] := by
  have hne : backupPath ≠ dbPath := by decide
  have hr : rebuildFs fs newDb =
      fsWrite (fsRemove (fsWrite fs backupPath oldDb) dbPath) dbPath newDb := by
    unfold rebuildFs
    rw [hdb]
  have hkeep : fsRemove (fsWrite fs backupPath oldDb) dbPath =
      (backupPath, oldDb) :: fsRemove (fsRemove fs backupPath) dbPath := by
    show fsRemove ((backupPath, oldDb) :: fsRemove fs backupPath) dbPath = _
    exact fsRemove_cons_keep _ _ _ (by show (backupPath != dbPath) = true; decide)
  refine ⟨?_, ?_, ?_, rfl⟩
  · rw [hr, lookup_fsWrite_ne _ _ _ _ hne, hkeep]
    exact List.lookup_cons_self
  · rw [hr]
    exact lookup_fsWrite_self _ _ _
  · rw [hr, hkeep]
    show countBackups ((dbPath, newDb) ::
      fsRemove ((backupPath, oldDb) ::
        fsRemove (fsRemove fs backupPath) dbPath) dbPath) = 1
    rw [countBackups_cons_not _ _ (by show hasSuffix dbPath ".backup" = false; decide)]
    rw [fsRemove_cons_keep _ _ _ (by show (backupPath != dbPath) = true; decide)]
    rw [countBackups_cons_yes _ _ (by show hasSuffix backupPath ".backup" = true; decide)]
    have hz : countBackups
        (fsRemove (fsRemove (fsRemove fs backupPath) dbPath) dbPath) = 0 :=
      countBackups_fsRemove_zero _ _
        (countBackups_fsRemove_zero _ _ (countBackups_fsRemove_zero _ _ hnb))
    rw [hz]

/-- Witness for C7 at a concrete filesystem holding one database file and one
unrelated file. -/
theorem backup_copied_before_unlink_witness :
    (rebuildFs [(dbPath, "OLDBYTES"), ("data/other.csv", "x")] "NEWBYTES").lookup
        backupPath = some "OLDBYTES"
    ∧ (rebuildFs [(dbPath, "OLDBYTES"), ("data/other.csv", "x")] "NEWBYTES").lookup
        dbPath = some "NEWBYTES"
    ∧ countBackups
        (rebuildFs [(dbPath, "OLDBYTES"), ("data/other.csv", "x")] "NEWBYTES") = 1
    ∧ (mainStartup true true).1 = [.backupCopy, .dbUnlink, .dbCreate] :=
  backup_copied_before_unlink [(dbPath, "OLDBYTES"), ("data/other.csv", "x")]
    "OLDBYTES" "NEWBYTES" (by decide) (by decide)

/-! ### C4 — the full rebuild -/

theorem dbUpdate_names (db : Database) (name : String) (t : Table) :
    (dbUpdate db name t).map Prod.fst = db.map Prod.fst := by
  unfold dbUpdate
  rw [List.map_map]
  refine List.map_congr_left ?_
  intro e _
  by_cases h : e.1 = name <;> simp [h]

theorem importStep_spec (env : Env) (db : Database) (p : String × String)
    (db' : Database) (n : Nat) (h : importStep env db p = .ok (db', n)) :
    db'.map Prod.fst = db.map Prod.fst ∧ n = dataRowCount (env p.1) := by
  unfold importStep at h
  split at h
  next henv =>
    cases h
    rw [henv]
    exact ⟨rfl, rfl⟩
  next records henv =>
    split at h
    next hlk => cases h
    next t hlk =>
      split at h
      next t' m hic =>
        cases h
        rw [henv]
        exact ⟨dbUpdate_names db p.2 t',
          importCsvContent_count t records t' n hic⟩
      next e hic => cases h

theorem runImports_spec (env : Env) (ps : List (String × String)) :
    ∀ (db : Database) (acc : Nat) (db' : Database) (total : Nat),
    runImports env ps db acc = .ok (db', total) →
    db'.map Prod.fst = db.map Prod.fst ∧
      total = acc + (ps.map fun p => dataRowCount (env p.1)).sum := by
  induction ps with
  | nil =>
    intro db acc db' total h
    cases h
    exact ⟨rfl, by simp⟩
  | cons p ps ih =>
    intro db acc db' total h
    unfold runImports at h
    cases hstep : importStep env db p with
    | error e => rw [hstep] at h; cases h
    | ok r =>
      obtain ⟨db1, n⟩ := r
      rw [hstep] at h
      obtain ⟨hnames, hsum⟩ := ih db1 (acc + n) db' total h
      obtain ⟨hst1, hst2⟩ := importStep_spec env db p db1 n hstep
      refine ⟨by rw [hnames, hst1], ?_⟩
      rw [List.map_cons, List.sum_cons]
      rw [hst2] at hsum
      omega

/-- C4 counterexample: the rebuild creates exactly 18 tables, not 20, and no
warning-list table exists for 2022 (`GJQKYJMD2022` is never created); a
concrete full run over an empty source directory confirms the table list. -/
theorem rebuild_has_18_tables_not_20 :
    createDb.map Prod.fst = expectedTableNames
    ∧ expectedTableNames.length = 18
    ∧ expectedTableNames.contains "GJQKYJMD2022" = false
    ∧ (mainImports fun _ => none).toOption.map
        (fun r => (r.1.map Prod.fst, r.2)) = some (expectedTableNames, 0) := by
  refine ⟨by decide, by decide, by decide, by decide⟩

/-- C4 amended: whichever source files are present, a full rebuild whose
file imports all succeed yields a database with exactly the 18 declared tables —
warning lists for 2020, 2021, 2023, 2024 and 2025 only — and an accumulated
record total equal to the sum of the data rows of the present files. -/
theorem rebuild_tables_and_total (env : Env)
    (hok : resultOk (mainImports env) = true) :
    (mainImports env).toOption.map (fun r => (r.1.map Prod.fst, r.2)) =
      some (expectedTableNames,
        (filePairs.map fun p => dataRowCount (env p.1)).sum) := by
  cases h : mainImports env with
  | error e =>
    rw [h] at hok
    exact absurd hok (by simp [resultOk])
  | ok r =>
    obtain ⟨db, total⟩ := r
    obtain ⟨hnames, htotal⟩ := runImports_spec env filePairs createDb 0 db total h
    have hcreate : createDb.map Prod.fst = expectedTableNames := by decide
    simp only [Except.toOption, Option.map]
    rw [hnames, hcreate, htotal, Nat.zero_add]

/-- Witness for the amended C4: with only the 2020 warning list present
(two data rows), the run succeeds, all 18 tables exist and the total is 2. -/
theorem rebuild_tables_and_total_witness :
    resultOk (mainImports envW) = true
    ∧ (mainImports envW).toOption.map (fun r => (r.1.map Prod.fst, r.2)) =
        some (expectedTableNames, 2) :=
  ⟨by decide, rebuild_tables_and_total envW (by decide)⟩

/-! ### C3 — re-import and row counts -/

theorem keyEq_self_of_complete (key cols : List String) (v : List Value)
    (h : keyComplete key cols v = true) :
    keyEq key (rowOf cols v) (rowOf cols v) = true := by
  unfold keyComplete at h
  unfold keyEq
  rw [List.all_eq_true] at h ⊢
  intro c hc
  obtain ⟨x, hx⟩ := Option.isSome_iff_exists.mp (h c hc)
  simp only [hx]
  simp

/-- Shape of one successful `INSERT OR REPLACE` on a table with a declared
unique key: the schema and all non-conflicting rows are kept, the new row is
appended with the next rowid. -/
theorem insertOk_spec (t : Table) (cols : List String) (v : List Value)
    (key : List String) (t1 : Table)
    (hkey : t.schema.uniqueKey = some key)
    (h : insertOrReplace t cols v = .ok t1) :
    t1.schema = t.schema ∧ t1.nextId = t.nextId + 1 ∧
      t1.rows = (t.rows.filter fun r => !(keyEq key (rowOf cols v) r))
        ++ [⟨t.nextId, cols.zip v⟩] := by
  unfold insertOrReplace at h
  split at h
  · split at h
    · cases h
      refine ⟨rfl, rfl, ?_⟩
      simp only [hkey]
      rfl
    · cases h
  · cases h

/-- Shape of a successful batch against a table with a declared unique key:
the stored rows not conflicting with any batch row are kept, and the batch
contributes one row per key it ends with. -/
theorem execMany_shape (key cols : List String) :
    ∀ (vs : List (List Value)) (t t' : Table),
    t.schema.uniqueKey = some key →
    (∀ v ∈ vs, keyComplete key cols v = true) →
    execMany t cols vs = .ok t' →
    t'.schema = t.schema ∧
    ∃ B, t'.rows = (t.rows.filter fun r => !(matchedBy key cols vs r)) ++ B
      ∧ (∀ b ∈ B, matchedBy key cols vs b = true)
      ∧ B.length = dcount key cols vs := by
  intro vs
  induction vs with
  | nil =>
    intro t t' hkey hcomp h
    cases h
    refine ⟨rfl, [], ?_, ?_, rfl⟩
    · simp [matchedBy]
    · intro b hb
      simp at hb
  | cons v vs ih =>
    intro t t' hkey hcomp h
    unfold execMany at h
    split at h
    next t1 hins =>
      obtain ⟨hsch, hnid, hrows⟩ := insertOk_spec t cols v key t1 hkey hins
      have hkey1 : t1.schema.uniqueKey = some key := by rw [hsch]; exact hkey
      have hcompv : ∀ w ∈ vs, keyComplete key cols w = true := fun w hw =>
        hcomp w (List.mem_cons_of_mem v hw)
      obtain ⟨hsch', B', hrows', hmem', hlen'⟩ := ih t1 t' hkey1 hcompv h
      have hcv : keyComplete key cols v = true :=
        hcomp v (List.mem_cons_self v vs)
      refine ⟨by rw [hsch', hsch],
        (List.filter (fun r => !(matchedBy key cols vs r))
          [⟨t.nextId, cols.zip v⟩]) ++ B', ?_, ?_, ?_⟩
      · rw [hrows', hrows, List.filter_append, List.filter_filter]
        have hc : (t.rows.filter fun a =>
            (!(matchedBy key cols vs a)) && !(keyEq key (rowOf cols v) a))
            = t.rows.filter fun r => !(matchedBy key cols (v :: vs) r) := by
          refine List.filter_congr ?_
          intro a _
          have hm : matchedBy key cols (v :: vs) a
              = (keyEq key (rowOf cols v) a || matchedBy key cols vs a) := by
            unfold matchedBy
            rw [List.any_cons]
          rw [hm, Bool.not_or, Bool.and_comm]
        rw [hc, List.append_assoc]
      · intro b hb
        rcases List.mem_append.mp hb with hbl | hbr
        · have hbnr : b = (⟨t.nextId, cols.zip v⟩ : Row) := by
            have hmf := List.mem_filter.mp hbl
            simpa using hmf.1
          subst hbnr
          have hrefl : keyEq key (rowOf cols v)
              (⟨t.nextId, cols.zip v⟩ : Row) = true :=
            keyEq_self_of_complete key cols v hcv
          simp only [matchedBy, List.any_cons]
          simp [hrefl]
        · have hb' := hmem' b hbr
          simp only [matchedBy, List.any_cons]
          simp only [matchedBy] at hb'
          simp [hb']
      · rw [List.length_append, hlen']
        have hr : matchedBy key cols vs (⟨t.nextId, cols.zip v⟩ : Row)
            = matchedBy key cols vs (rowOf cols v) := rfl
        cases hm : matchedBy key cols vs (rowOf cols v) with
        | true =>
          simp [dcount, List.filter_singleton, hr, hm]
        | false =>
          simp [dcount, List.filter_singleton, hr, hm]
          omega
    next e hins => cases h

/-- C3 counterexample: on a table without a declared unique constraint
(`GJQKYJMD2020`), `INSERT OR REPLACE` degenerates to plain insert, and so a
second import of the same one-row CSV grows the table from 1 row to 2 rows —
re-import is not idempotent for every known (file, table) pair. -/
theorem keyless_reimport_doubles_rows :
    importCsv gjTable0 gjFile1 = .ok (gjT1, 1)
    ∧ importCsv gjT1 gjFile1 = .ok (gjT2, 1)
    ∧ gjT1.rows.length = 1
    ∧ gjT2.rows.length = 2 := by
  refine ⟨by decide, by decide, rfl, rfl⟩

/-- C3 amended: for a table that does declare a unique key, importing a CSV
file twice in a row leaves the row count unchanged, provided every data row
binds non-NULL values on all key columns (insert-or-replace then replaces
the first import's rows key for key). -/
theorem keyed_reimport_preserves_rowcount
    (t t1 t2 : Table) (file : CsvFile) (key : List String) (n1 n2 : Nat)
    (hkey : t.schema.uniqueKey = some key)
    (hcomp : fileKeysComplete key file = true)
    (h1 : importCsv t file = .ok (t1, n1))
    (h2 : importCsv t1 file = .ok (t2, n2)) :
    t2.rows.length = t1.rows.length := by
  match file with
  | none =>
    simp only [importCsv] at h1 h2
    cases h1
    cases h2
    rfl
  | some [] =>
    simp [importCsv, importCsvContent] at h1
  | some (header :: dataRows) =>
    simp only [importCsv, importCsvContent] at h1 h2
    by_cases hemp : dataRows.isEmpty
    · rw [if_pos hemp] at h1
      cases h1
      rw [if_pos hemp] at h2
      cases h2
      rfl
    · rw [if_neg hemp] at h1 h2
      simp only [fileKeysComplete] at hcomp
      have hcompv : ∀ w ∈ dataRows.map (toValues (header.map pyStrip)),
          keyComplete key (header.map pyStrip) w = true := by
        intro w hw
        obtain ⟨rec, hrec, hweq⟩ := List.mem_map.mp hw
        subst hweq
        exact List.all_eq_true.mp hcomp rec hrec
      split at h1
      next t1x hex1 =>
        cases h1
        split at h2
        next t2x hex2 =>
          cases h2
          obtain ⟨hsch1, B1, hrows1, hmem1, hlen1⟩ :=
            execMany_shape key (header.map pyStrip)
              (dataRows.map (toValues (header.map pyStrip))) t t1 hkey hcompv hex1
          have hkey1 : t1.schema.uniqueKey = some key := by
            rw [hsch1]; exact hkey
          obtain ⟨hsch2, B2, hrows2, hmem2, hlen2⟩ :=
            execMany_shape key (header.map pyStrip)
              (dataRows.map (toValues (header.map pyStrip))) t1 t2 hkey1 hcompv hex2
          have hfilter : (t1.rows.filter fun r =>
              !(matchedBy key (header.map pyStrip)
                (dataRows.map (toValues (header.map pyStrip))) r))
              = t.rows.filter fun r =>
                !(matchedBy key (header.map pyStrip)
                  (dataRows.map (toValues (header.map pyStrip))) r) := by
            rw [hrows1, List.filter_append, List.filter_filter]
            have hsame : (t.rows.filter fun a =>
                (!(matchedBy key (header.map pyStrip)
                  (dataRows.map (toValues (header.map pyStrip))) a))
                && !(matchedBy key (header.map pyStrip)
                  (dataRows.map (toValues (header.map pyStrip))) a))
                = t.rows.filter fun r =>
                  !(matchedBy key (header.map pyStrip)
                    (dataRows.map (toValues (header.map pyStrip))) r) :=
              List.filter_congr fun a _ => Bool.and_self _
            have hnil : (B1.filter fun r =>
                !(matchedBy key (header.map pyStrip)
                  (dataRows.map (toValues (header.map pyStrip))) r)) = [] := by
              rw [List.filter_eq_nil_iff]
              intro b hb
              rw [hmem1 b hb]
              simp
            rw [hsame, hnil, List.append_nil]
          calc t2.rows.length
              = (t.rows.filter fun r =>
                  !(matchedBy key (header.map pyStrip)
                    (dataRows.map (toValues (header.map pyStrip))) r)).length
                + B2.length := by rw [hrows2, hfilter, List.length_append]
            _ = (t.rows.filter fun r =>
                  !(matchedBy key (header.map pyStrip)
                    (dataRows.map (toValues (header.map pyStrip))) r)).length
                + B1.length := by rw [hlen1, hlen2]
            _ = t1.rows.length := by rw [hrows1, List.length_append]
        next e hex2 => cases h2
      next e hex1 => cases h1

/-- Witness for the amended C3: the keyed `JCR2020` table, importing the same
one-row file twice; both imports succeed and the row count stays 1. -/
theorem keyed_reimport_preserves_rowcount_witness :
    importCsv jcrTable0 jcrFile1 =
      .ok (⟨jcr2020Schema, 2,
        [⟨1, [("Journal", some "Nature"), ("IF (2020)", some "64.8")]⟩]⟩, 1)
    ∧ importCsv
        ⟨jcr2020Schema, 2,
          [⟨1, [("Journal", some "Nature"), ("IF (2020)", some "64.8")]⟩]⟩
        jcrFile1 =
      .ok (⟨jcr2020Schema, 3,
        [⟨2, [("Journal", some "Nature"), ("IF (2020)", some "64.8")]⟩]⟩, 1)
    ∧ (⟨jcr2020Schema, 3,
        [⟨2, [("Journal", some "Nature"), ("IF (2020)", some "64.8")]⟩]⟩ :
          Table).rows.length =
      (⟨jcr2020Schema, 2,
        [⟨1, [("Journal", some "Nature"), ("IF (2020)", some "64.8")]⟩]⟩ :
          Table).rows.length := by
  refine ⟨by decide, by decide, ?_⟩
  exact keyed_reimport_preserves_rowcount jcrTable0 _ _ jcrFile1 ["Journal"]
    1 1 rfl (by decide) (by decide) (by decide)

end RebuildJcrDb
